import Mathlib

/-!
Shallow embedding of the Django-ecommerce-rest-api repository
(src/ecommerce_app/ecommerce/: models.py, serializers.py, views.py,
functions/tweet.py) and proofs about its request handlers.

Actors are `Option UserId`: `none` is an anonymous request
(request.user.is_authenticated = False), `some u` an authenticated user.
Strings follow Python semantics: `pyStrip` is str.strip(), `pyLen` is len().
The database is the relational state (stores, products, reviews) together
with the auto-increment primary-key counter; `now` stands for the
auto_now_add timestamp supplied by the framework at insert time.
-/

deriving instance DecidableEq for Except

namespace ECom

abbrev UserId := Nat

/-- An actor: `none` = anonymous request, `some u` = authenticated user u. -/
abbrev Actor := Option UserId

/-- Python str.isspace characters stripped by str.strip(). -/
def pyWhitespace (c : Char) : Bool :=
  c == ' ' || c == '\t' || c == '\n' || c == '\r' || c == '\x0b' || c == '\x0c'

/-- Python str.strip(): remove leading and trailing whitespace. -/
def pyStrip (s : String) : String :=
  ⟨((s.data.dropWhile pyWhitespace).reverse.dropWhile pyWhitespace).reverse⟩

/-- Python len() on a string. -/
def pyLen (s : String) : Nat := s.data.length

/-- models.Store: vendor FK (CASCADE), name, description, created_at
(auto_now_add). The optional logo image is irrelevant to the claims. -/
structure Store where
  id : Nat
  vendor : UserId
  name : String
  description : String
  createdAt : Nat
deriving Repr, DecidableEq

/-- models.Product: store FK (CASCADE), name, description, price
(DecimalField; modelled in cents as an integer), created_at. -/
structure Product where
  id : Nat
  storeId : Nat
  name : String
  description : String
  price : Int
  createdAt : Nat
deriving Repr, DecidableEq

/-- models.Review: product FK (CASCADE), user FK, rating, comment,
created_at; Meta.unique_together = [product, user]. -/
structure Review where
  id : Nat
  productId : Nat
  userId : UserId
  rating : Int
  comment : String
  createdAt : Nat
deriving Repr, DecidableEq

/-- The relational state plus the auto-increment primary-key counter. -/
structure DB where
  stores : List Store
  products : List Product
  reviews : List Review
  nextId : Nat
deriving Repr, DecidableEq

def findStore (db : DB) (sid : Nat) : Option Store :=
  db.stores.find? (fun s => s.id == sid)

def findProduct (db : DB) (pid : Nat) : Option Product :=
  db.products.find? (fun p => p.id == pid)

/-- A DRF Response, as produced by the handlers in views.py. -/
inductive Resp (α : Type) where
  | success (code : Nat) (value : α)
  | validationError (errors : List (String × String))
  | unauthenticated
  | forbidden
  | notFound
  | serverError
deriving Repr, DecidableEq

def Resp.status {α : Type} : Resp α → Nat
  | .success c _ => c
  | .validationError _ => 400
  | .unauthenticated => 401
  | .forbidden => 403
  | .notFound => 404
  | .serverError => 500

-- ==================== serializers.py: field validators ====================

/-- StoreSerializer.validate_name: error when the value is falsy or empty
after strip; error when the UNSTRIPPED length is below 3; returns the
stripped value. -/
def validateStoreName (value : String) : Except String String :=
  if pyLen value = 0 ∨ pyLen (pyStrip value) = 0 then
    .error "Store name cannot be empty"
  else if pyLen value < 3 then
    .error "Store name must be at least 3 characters long"
  else .ok (pyStrip value)

/-- StoreSerializer.validate_description. -/
def validateStoreDescription (value : String) : Except String String :=
  if pyLen value = 0 ∨ pyLen (pyStrip value) = 0 then
    .error "Store description cannot be empty"
  else .ok (pyStrip value)

/-- ProductSerializer.validate_name (same shape as the store one). -/
def validateProductName (value : String) : Except String String :=
  if pyLen value = 0 ∨ pyLen (pyStrip value) = 0 then
    .error "Product name cannot be empty"
  else if pyLen value < 3 then
    .error "Product name must be at least 3 characters long"
  else .ok (pyStrip value)

/-- ProductSerializer.validate_description. -/
def validateProductDescription (value : String) : Except String String :=
  if pyLen value = 0 ∨ pyLen (pyStrip value) = 0 then
    .error "Product description cannot be empty"
  else .ok (pyStrip value)

/-- ProductSerializer.validate_price. -/
def validateProductPrice (value : Int) : Except String Int :=
  if value < 0 then .error "Product price cannot be negative"
  else .ok value

/-- ProductSerializer.validate_store_id: the store must exist and the
requesting user must be its vendor (an anonymous user never equals the
vendor). -/
def validateStoreId (db : DB) (actor : Actor) (value : Nat) : Except String Nat :=
  match findStore db value with
  | none => .error "Store does not exist"
  | some store =>
      if actor ≠ some store.vendor then
        .error "You can only add products to your own stores"
      else .ok value

/-- ReviewSerializer.validate_rating. -/
def validateRating (value : Int) : Except String Int :=
  if value < 1 ∨ value > 5 then .error "Rating must be between 1 and 5"
  else .ok value

/-- ReviewSerializer.validate_comment. -/
def validateComment (value : String) : Except String String :=
  if pyLen value = 0 ∨ pyLen (pyStrip value) = 0 then
    .error "Review comment cannot be empty"
  else .ok (pyStrip value)

/-- One entry of serializer.errors for a field, empty when the field
validator accepts. -/
def fieldErr {β : Type} (field : String) (r : Except String β) : List (String × String) :=
  match r with
  | .error m => [(field, m)]
  | .ok _ => []

-- ==================== serializers.py: payloads and is_valid ====================

/-- Client payload for POST /api/stores/. vendor_id is the write-only
IntegerField(required=False) declared on StoreSerializer. -/
structure StorePayload where
  name : String
  description : String
  vendorId : Option Nat := none
deriving Repr, DecidableEq

/-- Client payload for PUT /api/stores/{id}/ (partial update: only the
supplied fields are validated and written). -/
structure StoreUpdatePayload where
  name : Option String := none
  description : Option String := none
  vendorId : Option Nat := none
deriving Repr, DecidableEq

/-- Client payload for POST /api/stores/{id}/products/. The view overrides
any client store_id with the path parameter, so it is not part of the
payload. -/
structure ProductPayload where
  name : String
  description : String
  price : Int
deriving Repr, DecidableEq

/-- Client payload for a review create. `userField` models a client-supplied
user value: 'user' is in ReviewSerializer read_only_fields, so it is
dropped from input and never read. -/
structure ReviewPayload where
  productId : Nat
  rating : Int
  comment : String
  userField : Option Nat := none
deriving Repr, DecidableEq

/-- The ModelSerializer auto-builds serializers.CharField for the model
CharField/TextField columns (name, description, comment); its default
trim_whitespace=True strips the incoming value in to_internal_value
BEFORE the serializer's validate_<field> hook runs, so every validate_*
above receives this value. -/
def charFieldInput (raw : String) : String := pyStrip raw

/-- StoreSerializer.is_valid: collect the errors of every field validator,
each text validator fed the CharField's trimmed output (the vendor_id
IntegerField has no validator). -/
def storeValidate (p : StorePayload) : List (String × String) :=
  fieldErr "name" (validateStoreName (charFieldInput p.name)) ++
  fieldErr "description" (validateStoreDescription (charFieldInput p.description))

/-- StoreSerializer.is_valid with partial=True: only supplied fields are
validated. -/
def storeUpdateValidate (p : StoreUpdatePayload) : List (String × String) :=
  (match p.name with
   | some n => fieldErr "name" (validateStoreName (charFieldInput n))
   | none => []) ++
  (match p.description with
   | some d => fieldErr "description" (validateStoreDescription (charFieldInput d))
   | none => [])

/-- ProductSerializer.is_valid, in Meta.fields order (store_id precedes the
other writable fields). -/
def productValidate (db : DB) (actor : Actor) (storeId : Nat) (p : ProductPayload) :
    List (String × String) :=
  fieldErr "store_id" (validateStoreId db actor storeId) ++
  fieldErr "name" (validateProductName (charFieldInput p.name)) ++
  fieldErr "description" (validateProductDescription (charFieldInput p.description)) ++
  fieldErr "price" (validateProductPrice p.price)

/-- ReviewSerializer.is_valid (product_id has no field validator). -/
def reviewValidate (p : ReviewPayload) : List (String × String) :=
  fieldErr "rating" (validateRating p.rating) ++
  fieldErr "comment" (validateComment (charFieldInput p.comment))

/-- StoreSerializer.create: pop vendor_id from validated_data and set
vendor to request.user; the persisted row carries the validated_data
values, i.e. what validate_name/validate_description returned on the
CharField's trimmed output. -/
def storeSerializerCreate (user : UserId) (p : StorePayload) (db : DB) (now : Nat) :
    Store × DB :=
  let s : Store :=
    { id := db.nextId, vendor := user, name := pyStrip (charFieldInput p.name),
      description := pyStrip (charFieldInput p.description), createdAt := now }
  (s, { db with stores := db.stores ++ [s], nextId := db.nextId + 1 })

/-- ModelSerializer.update on a Store: setattr every validated_data entry
onto the instance. The declared vendor_id field is writable and not popped
on update, so a supplied vendor_id is written to the vendor FK; id and
created_at are read-only and never touched. -/
def storeApplyUpdate (s : Store) (p : StoreUpdatePayload) : Store :=
  let s1 := match p.vendorId with
            | some v => { s with vendor := v }
            | none => s
  let s2 := match p.name with
            | some n => { s1 with name := pyStrip (charFieldInput n) }
            | none => s1
  match p.description with
  | some d => { s2 with description := pyStrip (charFieldInput d) }
  | none => s2

-- ==================== functions/tweet.py: the notification dispatcher ====================

/-- The four TWITTER_* values read from django settings; a setting may be
absent (None) or set to a string (the empty string is falsy in Python). -/
structure TweetSettings where
  consumerKey : Option String
  consumerSecret : Option String
  accessToken : Option String
  accessTokenSecret : Option String
deriving Repr, DecidableEq

/-- Python truthiness of an optional string setting. -/
def truthy : Option String → Bool
  | none => false
  | some s => s != ""

/-- The state of the Tweet singleton: its credentials and whether
self.oauth holds an OAuth1Session (true) or None (false). -/
structure TweetState where
  settings : TweetSettings
  oauth : Bool
deriving Repr, DecidableEq

/-- Tweet.authenticate: if any of the four credentials is falsy, return
False leaving self.oauth untouched; otherwise build the OAuth1Session and
return True. -/
def TweetState.authenticate (t : TweetState) : TweetState × Bool :=
  if truthy t.settings.consumerKey && truthy t.settings.consumerSecret &&
     truthy t.settings.accessToken && truthy t.settings.accessTokenSecret then
    ({ t with oauth := true }, true)
  else (t, false)

/-- Tweet.__init__ (first construction): load the settings, set
self.oauth = None, and call authenticate only when consumer key and secret
are both truthy. -/
def TweetState.init (cfg : TweetSettings) : TweetState :=
  let t : TweetState := { settings := cfg, oauth := false }
  if truthy cfg.consumerKey && truthy cfg.consumerSecret then
    t.authenticate.fst
  else t

/-- Outcome of the outbound POST to the tweets endpoint, an environment
parameter: the HTTP status actually returned, or a transport exception. -/
inductive HttpOutcome where
  | status (code : Nat)
  | exn
deriving Repr, DecidableEq

/-- What Tweet.make_tweet returned: None after skipping (not
authenticated), the parsed body on HTTP 201, or None after a logged
failure (non-201 status or a caught exception). -/
inductive TweetResult where
  | skipped
  | posted
  | failed
deriving Repr, DecidableEq

/-- Tweet.make_tweet: when self.oauth is None, log and return None without
any outbound call; otherwise perform exactly one POST and map 201 to
success, anything else (or an exception) to a logged failure. The second
component counts outbound HTTP calls. -/
def TweetState.makeTweet (t : TweetState) (h : HttpOutcome) : TweetResult × Nat :=
  if !t.oauth then (.skipped, 0)
  else
    match h with
    | .status code => if code == 201 then (.posted, 1) else (.failed, 1)
    | .exn => (.failed, 1)

-- ==================== views.py: request handlers ====================

/-- Side effects of a create handler, in program order. -/
inductive Event where
  | persisted
  | dispatched
deriving Repr, DecidableEq

/-- Everything a create view produces: the HTTP response, the new state,
the side effects in order, and how many outbound notification calls were
made. -/
structure ViewResult (α : Type) where
  resp : Resp α
  db : DB
  events : List Event
  tweetCalls : Nat
deriving Repr, DecidableEq

/-- views.stores_list_create, POST branch: 401 when anonymous; otherwise
validate, persist via StoreSerializer.create, then best-effort dispatch
the new-store tweet inside try/except (its result is logged and
discarded), and answer 201 with the serialized store. `cfg` and `httpOut`
are the notification environment. -/
def storesListCreatePost (db : DB) (actor : Actor) (p : StorePayload) (now : Nat)
    (cfg : TweetSettings) (httpOut : HttpOutcome) : ViewResult Store :=
  match actor with
  | none => ⟨.unauthenticated, db, [], 0⟩
  | some user =>
    let errors := storeValidate p
    if errors.isEmpty then
      let (s, db') := storeSerializerCreate user p db now
      let calls := ((TweetState.init cfg).makeTweet httpOut).snd
      ⟨.success 201 s, db', [.persisted, .dispatched], calls⟩
    else ⟨.validationError errors, db, [], 0⟩

/-- views.store_products, POST branch: when the store is absent,
get_object_or_404 raises Http404, which the view's `except Store.DoesNotExist`
does not match, so the blanket `except Exception` answers 500; then 401
when anonymous, 403 when the actor is not the store's vendor; then
validate (the view overrides the payload's store_id with the path id),
persist, best-effort dispatch the new-product tweet, and answer 201. -/
def storeProductsPost (db : DB) (actor : Actor) (storeId : Nat) (p : ProductPayload)
    (now : Nat) (cfg : TweetSettings) (httpOut : HttpOutcome) : ViewResult Product :=
  match findStore db storeId with
  | none => ⟨.serverError, db, [], 0⟩
  | some store =>
    match actor with
    | none => ⟨.unauthenticated, db, [], 0⟩
    | some user =>
      if store.vendor ≠ user then ⟨.forbidden, db, [], 0⟩
      else
        let errors := productValidate db actor storeId p
        if errors.isEmpty then
          let prod : Product :=
            { id := db.nextId, storeId := storeId, name := pyStrip (charFieldInput p.name),
              description := pyStrip (charFieldInput p.description), price := p.price,
              createdAt := now }
          let db' := { db with products := db.products ++ [prod], nextId := db.nextId + 1 }
          let calls := ((TweetState.init cfg).makeTweet httpOut).snd
          ⟨.success 201 prod, db', [.persisted, .dispatched], calls⟩
        else ⟨.validationError errors, db, [], 0⟩

/-- views.store_detail, PUT branch: a missing store answers 500, because
get_object_or_404 raises Http404 and the view's `except Store.DoesNotExist`
never matches it, leaving the blanket `except Exception`; then 401 when
anonymous, 403 when the actor is not the vendor, then serializer
validation with partial=True and ModelSerializer.update. -/
def storeDetailPut (db : DB) (actor : Actor) (sid : Nat) (p : StoreUpdatePayload) :
    Resp Store × DB :=
  match findStore db sid with
  | none => (.serverError, db)
  | some store =>
    match actor with
    | none => (.unauthenticated, db)
    | some user =>
      if store.vendor ≠ user then (.forbidden, db)
      else
        let errors := storeUpdateValidate p
        if errors.isEmpty then
          let s' := storeApplyUpdate store p
          (.success 200 s',
           { db with stores := db.stores.map (fun t => if t.id = store.id then s' else t) })
        else (.validationError errors, db)

/-- models.py cascade semantics of store.delete(): the store row goes, every
product with that store FK goes (Product.store on_delete=CASCADE), and
every review whose product FK is one of those products goes
(Review.product on_delete=CASCADE). -/
def deleteStoreCascade (db : DB) (sid : Nat) : DB :=
  let deadProducts := db.products.filter (fun p => p.storeId == sid)
  { db with
    stores := db.stores.filter (fun s => s.id != sid),
    products := db.products.filter (fun p => p.storeId != sid),
    reviews := db.reviews.filter (fun r => !(deadProducts.any (fun p => p.id == r.productId))) }

/-- views.store_detail, DELETE branch: a missing store answers 500 (the
Http404 of get_object_or_404 falls through to `except Exception`, as in the
PUT branch), 401 when anonymous, 403 when not the vendor, else
store.delete() with cascades and 204. -/
def storeDetailDelete (db : DB) (actor : Actor) (sid : Nat) : Resp Unit × DB :=
  match findStore db sid with
  | none => (.serverError, db)
  | some store =>
    match actor with
    | none => (.unauthenticated, db)
    | some user =>
      if store.vendor ≠ user then (.forbidden, db)
      else (.success 204 (), deleteStoreCascade db sid)

/-- models.py cascade semantics of product.delete(): the product row and
every review on it go. -/
def deleteProductCascade (db : DB) (pid : Nat) : DB :=
  { db with
    products := db.products.filter (fun p => p.id != pid),
    reviews := db.reviews.filter (fun r => r.productId != pid) }

/-- views.product_detail, DELETE branch: a missing product answers 500
(get_object_or_404's Http404 falls through to `except Exception`), 401
when anonymous, 403 when the actor is not the vendor of product.store,
else product.delete() and 204. A dangling store FK would raise inside the
handler and hit the catch-all 500. -/
def productDetailDelete (db : DB) (actor : Actor) (pid : Nat) : Resp Unit × DB :=
  match findProduct db pid with
  | none => (.serverError, db)
  | some prod =>
    match actor with
    | none => (.unauthenticated, db)
    | some user =>
      match findStore db prod.storeId with
      | none => (.serverError, db)
      | some store =>
        if store.vendor ≠ user then (.forbidden, db)
        else (.success 204 (), deleteProductCascade db pid)

/-- Modelled from the spec: the repository routes no review-creation
endpoint (urls.py exposes only the six views above), so the review-create
Resource Service of spec sections 4.1, 4.2 and 8 is missing from src/. Per
the spec, any authenticated actor creates a review on any product
(ownership of the reviewed product is irrelevant), with fetch-or-404,
field validation and reviewer injection taken from ReviewSerializer in
serializers.py, and the (product, user) unique_together constraint of
models.py enforced at the data layer, surfaced as a validation-style
Conflict. -/
def reviewCreate (db : DB) (actor : Actor) (p : ReviewPayload) (now : Nat) :
    Resp Review × DB :=
  match actor with
  | none => (.unauthenticated, db)
  | some user =>
    match findProduct db p.productId with
    | none => (.notFound, db)
    | some _ =>
      let errors := reviewValidate p
      if errors.isEmpty then
        if db.reviews.any (fun r => r.productId == p.productId && r.userId == user) then
          (.validationError [("non_field_errors", "The fields product, user must make a unique set.")], db)
        else
          let r : Review :=
            { id := db.nextId, productId := p.productId, userId := user,
              rating := p.rating, comment := pyStrip (charFieldInput p.comment),
              createdAt := now }
          (.success 201 r, { db with reviews := db.reviews ++ [r], nextId := db.nextId + 1 })
      else (.validationError errors, db)

/-- The data-layer invariant of Review.Meta.unique_together: no two rows
share the (product, user) pair. -/
def reviewsUnique (db : DB) : Prop :=
  db.reviews.Pairwise (fun a b => ¬(a.productId = b.productId ∧ a.userId = b.userId))

instance (db : DB) : Decidable (reviewsUnique db) := by
  unfold reviewsUnique; infer_instance

-- ==================== sample fixtures for concrete evaluations ====================

/-- A small concrete state: vendor 1 owns store 1 which holds product 2;
user 5 already reviewed product 2. -/
def sampleDB : DB :=
  { stores := [{ id := 1, vendor := 1, name := "Acme", description := "widgets", createdAt := 0 }],
    products := [{ id := 2, storeId := 1, name := "Widget", description := "good",
                   price := 999, createdAt := 0 }],
    reviews := [{ id := 9, productId := 2, userId := 5, rating := 5,
                  comment := "Great", createdAt := 0 }],
    nextId := 10 }

/-- A fully configured notification environment. -/
def sampleCfg : TweetSettings :=
  { consumerKey := some "ck", consumerSecret := some "cs",
    accessToken := some "at", accessTokenSecret := some "ats" }

/-- A notification environment with every secret absent. -/
def emptyCfg : TweetSettings :=
  { consumerKey := none, consumerSecret := none,
    accessToken := none, accessTokenSecret := none }

-- ==================== helper lemmas ====================

/-- Whether an Except value is a success. -/
def exceptOk {α : Type} : Except String α → Bool
  | .ok _ => true
  | .error _ => false

theorem pyStrip_len_le (s : String) : pyLen (pyStrip s) ≤ pyLen s := by
  unfold pyStrip pyLen
  calc (((s.data.dropWhile pyWhitespace).reverse.dropWhile pyWhitespace).reverse).length
      = ((s.data.dropWhile pyWhitespace).reverse.dropWhile pyWhitespace).length := by
        rw [List.length_reverse]
    _ ≤ (s.data.dropWhile pyWhitespace).reverse.length :=
        (List.dropWhile_sublist pyWhitespace).length_le
    _ = (s.data.dropWhile pyWhitespace).length := by rw [List.length_reverse]
    _ ≤ s.data.length := (List.dropWhile_sublist pyWhitespace).length_le

theorem dropWhile_self {α : Type} (p : α → Bool) (l : List α) :
    (l.dropWhile p).dropWhile p = l.dropWhile p := by
  induction l with
  | nil => rfl
  | cons a t ih =>
    by_cases ha : p a
    · simp [List.dropWhile_cons, ha, ih]
    · simp [List.dropWhile_cons, ha]

theorem dropWhile_head_false {α : Type} {p : α → Bool} :
    ∀ {l : List α} {a : α} {t : List α}, l.dropWhile p = a :: t → p a = false := by
  intro l
  induction l with
  | nil => intro a t h; simp [List.dropWhile] at h
  | cons b u ih =>
    intro a t h
    by_cases hb : p b
    · rw [List.dropWhile_cons, if_pos hb] at h
      exact ih h
    · rw [List.dropWhile_cons, if_neg hb] at h
      cases h
      simpa using hb

theorem dropWhile_eq_self_of_forall {α : Type} {p : α → Bool} {l : List α}
    (h : ∀ c ∈ l, p c = false) : l.dropWhile p = l := by
  cases l with
  | nil => rfl
  | cons a t => simp [List.dropWhile_cons, h a (by simp)]

/-- Core of strip idempotence at the list level: stripping a stripped
character list changes nothing (the stripped list begins and ends with a
non-whitespace character, or is empty). -/
theorem strip_core_idem (l : List Char) :
    ((((((l.dropWhile pyWhitespace).reverse.dropWhile pyWhitespace).reverse).dropWhile
        pyWhitespace).reverse).dropWhile pyWhitespace).reverse =
      ((l.dropWhile pyWhitespace).reverse.dropWhile pyWhitespace).reverse := by
  have hA : (((l.dropWhile pyWhitespace).reverse.dropWhile pyWhitespace).reverse).dropWhile
      pyWhitespace =
      ((l.dropWhile pyWhitespace).reverse.dropWhile pyWhitespace).reverse := by
    match hm : ((l.dropWhile pyWhitespace).reverse.dropWhile pyWhitespace).reverse with
    | [] => rfl
    | a :: t =>
      have hsplit := List.takeWhile_append_dropWhile pyWhitespace (l.dropWhile pyWhitespace).reverse
      have hd1 : l.dropWhile pyWhitespace =
          a :: (t ++ ((l.dropWhile pyWhitespace).reverse.takeWhile pyWhitespace).reverse) := by
        have h := congrArg List.reverse hsplit
        rw [List.reverse_append, List.reverse_reverse, hm] at h
        simpa [List.cons_append] using h.symm
      have hhead : pyWhitespace a = false := dropWhile_head_false hd1
      simp [List.dropWhile_cons, hhead]
  rw [hA, List.reverse_reverse, dropWhile_self]

/-- Python strip is idempotent. -/
theorem pyStrip_idem (s : String) : pyStrip (pyStrip s) = pyStrip s := by
  unfold pyStrip
  exact congrArg String.mk (strip_core_idem s.data)

/-- A string without any whitespace character strips to itself. -/
theorem pyStrip_of_no_whitespace {s : String}
    (h : ∀ c ∈ s.data, pyWhitespace c = false) : pyStrip s = s := by
  unfold pyStrip
  rw [dropWhile_eq_self_of_forall h,
      dropWhile_eq_self_of_forall (fun c hc => h c (List.mem_reverse.mp hc)),
      List.reverse_reverse]

/-- The two name validators share one shape: acceptance is equivalent to
an untrimmed length of at least 3 together with a non-empty stripped
value. -/
theorem nameValidator_ok (s : String) (e₁ e₂ : String) :
    exceptOk (if pyLen s = 0 ∨ pyLen (pyStrip s) = 0 then (.error e₁ : Except String String)
              else if pyLen s < 3 then .error e₂
              else .ok (pyStrip s)) = true ↔
    3 ≤ pyLen s ∧ pyLen (pyStrip s) ≠ 0 := by
  split
  case isTrue h =>
    simp only [exceptOk, Bool.false_eq_true, false_iff]
    omega
  case isFalse h =>
    split
    case isTrue h2 =>
      simp only [exceptOk, Bool.false_eq_true, false_iff]
      omega
    case isFalse h2 =>
      simp only [exceptOk, true_iff]
      omega

-- ==================== claim theorems ====================

/-- Claim C1: for every store S and every actor A other than S's vendor, a
PUT or DELETE on /stores/{S.id}/ answers Forbidden (403) when A is
authenticated and Unauthenticated (401) when the request is anonymous, and
the handler distinguishes the two outcomes. -/
theorem store_detail_nonowner_rejected (db : DB) (actor : Actor) (sid : Nat)
    (p : StoreUpdatePayload) (s : Store)
    (hfind : findStore db sid = some s) (hne : actor ≠ some s.vendor) :
    (actor = none →
      (storeDetailPut db actor sid p).fst = Resp.unauthenticated ∧
      (storeDetailDelete db actor sid).fst = Resp.unauthenticated ∧
      ((storeDetailPut db actor sid p).fst).status = 401 ∧
      ((storeDetailDelete db actor sid).fst).status = 401) ∧
    (∀ u, actor = some u →
      (storeDetailPut db actor sid p).fst = Resp.forbidden ∧
      (storeDetailDelete db actor sid).fst = Resp.forbidden ∧
      ((storeDetailPut db actor sid p).fst).status = 403 ∧
      ((storeDetailDelete db actor sid).fst).status = 403) ∧
    (401 : Nat) ≠ 403 := by
  refine ⟨?_, ?_, by omega⟩
  · intro ha
    subst ha
    simp [storeDetailPut, storeDetailDelete, hfind, Resp.status]
  · intro u ha
    subst ha
    have hvu : s.vendor ≠ u := fun hv => hne (by rw [hv])
    simp [storeDetailPut, storeDetailDelete, hfind, hvu, Resp.status]

/-- Witness for C1 at a concrete store: authenticated non-owner 2 is
forbidden, the anonymous request is unauthenticated. -/
theorem store_detail_nonowner_rejected_witness :
    (storeDetailPut sampleDB (some 2) 1 ⟨some "Newname", none, none⟩).fst = Resp.forbidden ∧
    (storeDetailDelete sampleDB (some 2) 1).fst = Resp.forbidden ∧
    (storeDetailPut sampleDB none 1 ⟨some "Newname", none, none⟩).fst = Resp.unauthenticated ∧
    (storeDetailDelete sampleDB none 1).fst = Resp.unauthenticated := by
  have hf : findStore sampleDB 1 =
      some { id := 1, vendor := 1, name := "Acme", description := "widgets", createdAt := 0 } := by
    decide
  have h₁ := store_detail_nonowner_rejected sampleDB (some 2) 1
    ⟨some "Newname", none, none⟩ _ hf (by decide)
  have h₂ := store_detail_nonowner_rejected sampleDB none 1
    ⟨some "Newname", none, none⟩ _ hf (by decide)
  have ha := h₁.2.1 2 rfl
  have hb := h₂.1 rfl
  exact ⟨ha.1, ha.2.1, hb.1, hb.2.1⟩

/-- A field name occurs in a fieldErr fragment exactly when it is that
fragment's field and the validator rejected. -/
theorem mem_fieldErr {β : Type} (f g : String) (r : Except String β) :
    (∃ m, (f, m) ∈ fieldErr g r) ↔ (f = g ∧ ∃ m, r = .error m) := by
  cases r <;> simp [fieldErr]

/-- Counterexample to claim C10: the owner of store 1 (vendor 1) PUTs a
payload whose only content is vendor_id = 99; the request succeeds with
200 and the stored vendor changes from 1 to 99, so a successful PUT does
not always leave the vendor unchanged. -/
theorem store_update_vendor_frame_cex :
    findStore sampleDB 1 =
      some { id := 1, vendor := 1, name := "Acme", description := "widgets", createdAt := 0 } ∧
    (storeDetailPut sampleDB (some 1) 1 ⟨none, none, some 99⟩).fst =
      Resp.success 200 { id := 1, vendor := 99, name := "Acme", description := "widgets", createdAt := 0 } ∧
    findStore (storeDetailPut sampleDB (some 1) 1 ⟨none, none, some 99⟩).snd 1 =
      some { id := 1, vendor := 99, name := "Acme", description := "widgets", createdAt := 0 } ∧
    (99 : UserId) ≠ 1 := by
  decide

/-- Claim C10 as amended: a successful PUT on a store leaves id and
created_at unchanged, and leaves the vendor unchanged exactly when the
payload supplies no vendor_id; a supplied vendor_id is written to the
vendor reference, so ownership can be transferred through the update. -/
theorem store_update_frame (db : DB) (a : Actor) (sid : Nat)
    (p : StoreUpdatePayload) (s s' : Store)
    (hfind : findStore db sid = some s)
    (hput : (storeDetailPut db a sid p).fst = .success 200 s') :
    s'.id = s.id ∧ s'.createdAt = s.createdAt ∧
    (p.vendorId = none → s'.vendor = s.vendor) ∧
    (∀ v, p.vendorId = some v → s'.vendor = v) := by
  unfold storeDetailPut at hput
  rw [hfind] at hput
  match a with
  | none => simp at hput
  | some u =>
    simp only at hput
    by_cases hv : s.vendor ≠ u
    · rw [if_pos hv] at hput; simp at hput
    · rw [if_neg hv] at hput
      by_cases he : (storeUpdateValidate p).isEmpty
      · rw [if_pos he] at hput
        simp only [Resp.success.injEq, true_and] at hput
        subst hput
        unfold storeApplyUpdate
        match hvid : p.vendorId, hn : p.name, hd : p.description with
        | none, none, none => simp
        | none, none, some d => simp
        | none, some n, none => simp
        | none, some n, some d => simp
        | some v, none, none => simp
        | some v, none, some d => simp
        | some v, some n, none => simp
        | some v, some n, some d => simp
      · rw [if_neg he] at hput; simp at hput

/-- Witness for the amended C10: a PUT renaming store 1 without a
vendor_id keeps vendor 1; the counterexample PUT carries vendor_id 99 and
yields vendor 99. -/
theorem store_update_frame_witness :
    (Store.vendor { id := 1, vendor := 1, name := "Newname", description := "widgets", createdAt := 0 }) = 1 ∧
    (Store.createdAt { id := 1, vendor := 1, name := "Newname", description := "widgets", createdAt := 0 }) = 0 := by
  have h := store_update_frame sampleDB (some 1) 1 ⟨some "Newname", none, none⟩
    { id := 1, vendor := 1, name := "Acme", description := "widgets", createdAt := 0 }
    { id := 1, vendor := 1, name := "Newname", description := "widgets", createdAt := 0 }
    (by decide) (by decide)
  exact ⟨h.2.2.1 rfl, h.2.1⟩

/-- Claim C4: a Store (or Product) name with fewer than 3 characters
after trimming fails name validation, and a name of exactly 3
non-whitespace characters passes. The auto-built CharField strips the
raw value (trim_whitespace=True) before validate_name runs, so the
validator's length check operates on the trimmed name; acceptance is
exactly a trimmed length of at least 3. -/
theorem name_validation_trim_rule (s : String) :
    (pyLen (pyStrip s) < 3 →
      exceptOk (validateStoreName (charFieldInput s)) = false ∧
      exceptOk (validateProductName (charFieldInput s)) = false) ∧
    ((∀ c ∈ s.data, pyWhitespace c = false) → pyLen s = 3 →
      exceptOk (validateStoreName (charFieldInput s)) = true ∧
      exceptOk (validateProductName (charFieldInput s)) = true) ∧
    (exceptOk (validateStoreName (charFieldInput s)) = true ↔ 3 ≤ pyLen (pyStrip s)) ∧
    (exceptOk (validateProductName (charFieldInput s)) = true ↔ 3 ≤ pyLen (pyStrip s)) := by
  have hstore : exceptOk (validateStoreName (charFieldInput s)) = true ↔
      3 ≤ pyLen (pyStrip s) := by
    unfold charFieldInput validateStoreName
    rw [pyStrip_idem]
    split
    case isTrue hc => simp only [exceptOk, Bool.false_eq_true, false_iff]; omega
    case isFalse hc =>
      split
      case isTrue hc2 => simp only [exceptOk, Bool.false_eq_true, false_iff]; omega
      case isFalse hc2 => simp only [exceptOk, true_iff]; omega
  have hprod : exceptOk (validateProductName (charFieldInput s)) = true ↔
      3 ≤ pyLen (pyStrip s) := by
    unfold charFieldInput validateProductName
    rw [pyStrip_idem]
    split
    case isTrue hc => simp only [exceptOk, Bool.false_eq_true, false_iff]; omega
    case isFalse hc =>
      split
      case isTrue hc2 => simp only [exceptOk, Bool.false_eq_true, false_iff]; omega
      case isFalse hc2 => simp only [exceptOk, true_iff]; omega
  refine ⟨?_, ?_, hstore, hprod⟩
  · intro hlt
    constructor
    · cases hE : exceptOk (validateStoreName (charFieldInput s)) with
      | false => rfl
      | true => exact absurd (hstore.mp hE) (by omega)
    · cases hE : exceptOk (validateProductName (charFieldInput s)) with
      | false => rfl
      | true => exact absurd (hprod.mp hE) (by omega)
  · intro hnw h3
    have hps : pyStrip s = s := pyStrip_of_no_whitespace hnw
    have hlen : pyLen (pyStrip s) = 3 := by rw [hps]; exact h3
    exact ⟨hstore.mpr (by omega), hprod.mpr (by omega)⟩

/-- Witness for C4: "abc" (3 non-whitespace characters) passes both name
validators; " ab" (2 characters after trimming) is rejected by both. -/
theorem name_validation_trim_rule_witness :
    exceptOk (validateStoreName (charFieldInput "abc")) = true ∧
    exceptOk (validateProductName (charFieldInput "abc")) = true ∧
    exceptOk (validateStoreName (charFieldInput " ab")) = false ∧
    exceptOk (validateProductName (charFieldInput " ab")) = false := by
  have h₁ := name_validation_trim_rule "abc"
  have h₂ := name_validation_trim_rule " ab"
  have ha := h₁.2.1 (by decide) (by decide)
  have hb := h₂.1 (by decide)
  exact ⟨ha.1, ha.2, hb.1, hb.2⟩

/-- Counterexample to claim C3: an anonymous POST /api/stores/ whose
payload violates both the name and the description constraint is answered
401 Unauthenticated, not a 400 ValidationError, so field validation is not
evaluated before the access policy. -/
theorem create_validation_first_cex :
    storeValidate ⟨"ab", "", none⟩ ≠ [] ∧
    (storesListCreatePost sampleDB none ⟨"ab", "", none⟩ 5 sampleCfg .exn).resp =
      Resp.unauthenticated ∧
    (storesListCreatePost sampleDB none ⟨"ab", "", none⟩ 5 sampleCfg .exn).resp.status = 401 := by
  decide

/-- Claim C3 as amended: the create handlers evaluate the access policy
BEFORE payload validation — an anonymous actor is answered 401 and an
authenticated non-owner 403 regardless of the payload; when the actor
passes the policy, a payload violating field constraints fails with a
ValidationError listing all violated fields (a field appears in the error
list exactly when its validator rejected). -/
theorem create_policy_before_validation (db : DB) (u : UserId) (p : StorePayload)
    (sid : Nat) (store : Store) (pp : ProductPayload) (now : Nat)
    (cfg : TweetSettings) (h : HttpOutcome) :
    ((storesListCreatePost db none p now cfg h).resp = Resp.unauthenticated) ∧
    (storeValidate p ≠ [] →
      (storesListCreatePost db (some u) p now cfg h).resp =
        Resp.validationError (storeValidate p)) ∧
    (findStore db sid = some store →
      ((storeProductsPost db none sid pp now cfg h).resp = Resp.unauthenticated) ∧
      (store.vendor ≠ u →
        (storeProductsPost db (some u) sid pp now cfg h).resp = Resp.forbidden) ∧
      (productValidate db (some store.vendor) sid pp ≠ [] →
        (storeProductsPost db (some store.vendor) sid pp now cfg h).resp =
          Resp.validationError (productValidate db (some store.vendor) sid pp))) ∧
    ((∃ m, ("name", m) ∈ storeValidate p) ↔
      ∃ m, validateStoreName (charFieldInput p.name) = .error m) ∧
    ((∃ m, ("description", m) ∈ storeValidate p) ↔
      ∃ m, validateStoreDescription (charFieldInput p.description) = .error m) ∧
    ((∃ m, ("store_id", m) ∈ productValidate db (some u) sid pp) ↔
      ∃ m, validateStoreId db (some u) sid = .error m) ∧
    ((∃ m, ("name", m) ∈ productValidate db (some u) sid pp) ↔
      ∃ m, validateProductName (charFieldInput pp.name) = .error m) ∧
    ((∃ m, ("description", m) ∈ productValidate db (some u) sid pp) ↔
      ∃ m, validateProductDescription (charFieldInput pp.description) = .error m) ∧
    ((∃ m, ("price", m) ∈ productValidate db (some u) sid pp) ↔
      ∃ m, validateProductPrice pp.price = .error m) := by
  refine ⟨?_, ?_, ?_, ?_, ?_, ?_, ?_, ?_, ?_⟩
  · simp [storesListCreatePost]
  · intro hne
    have hE : (storeValidate p).isEmpty = false := by
      cases hE : (storeValidate p).isEmpty
      · rfl
      · exact absurd (List.isEmpty_iff.mp hE) hne
    simp [storesListCreatePost, hE]
  · intro hfind
    refine ⟨?_, ?_, ?_⟩
    · simp [storeProductsPost, hfind]
    · intro hvu
      simp [storeProductsPost, hfind, hvu]
    · intro hne
      have hE : (productValidate db (some store.vendor) sid pp).isEmpty = false := by
        cases hE : (productValidate db (some store.vendor) sid pp).isEmpty
        · rfl
        · exact absurd (List.isEmpty_iff.mp hE) hne
      simp [storeProductsPost, hfind, hE]
  · simp only [storeValidate, List.mem_append, exists_or, mem_fieldErr]
    simp
  · simp only [storeValidate, List.mem_append, exists_or, mem_fieldErr]
    simp
  · simp only [productValidate, List.mem_append, exists_or, mem_fieldErr]
    simp
  · simp only [productValidate, List.mem_append, exists_or, mem_fieldErr]
    simp
  · simp only [productValidate, List.mem_append, exists_or, mem_fieldErr]
    simp
  · simp only [productValidate, List.mem_append, exists_or, mem_fieldErr]
    simp

/-- Witness for the amended C3: concrete requests against sampleDB — the
anonymous create is 401, non-owner product create is 403, the owner's
invalid product payload yields the two-field error list. -/
theorem create_policy_before_validation_witness :
    (storesListCreatePost sampleDB none ⟨"ab", "", none⟩ 5 sampleCfg .exn).resp =
      Resp.unauthenticated ∧
    (storesListCreatePost sampleDB (some 7) ⟨"ab", "", none⟩ 5 sampleCfg .exn).resp =
      Resp.validationError
        [("name", "Store name must be at least 3 characters long"),
         ("description", "Store description cannot be empty")] ∧
    (storeProductsPost sampleDB (some 7) 1 ⟨"Gadget", "fine", 5⟩ 5 sampleCfg .exn).resp =
      Resp.forbidden := by
  have hf : findStore sampleDB 1 =
      some { id := 1, vendor := 1, name := "Acme", description := "widgets", createdAt := 0 } := by
    decide
  have h₁ := create_policy_before_validation sampleDB 7 ⟨"ab", "", none⟩ 1
    { id := 1, vendor := 1, name := "Acme", description := "widgets", createdAt := 0 }
    ⟨"Gadget", "fine", 5⟩ 5 sampleCfg .exn
  refine ⟨h₁.1, ?_, (h₁.2.2.1 hf).2.1 (by decide)⟩
  have hv : storeValidate ⟨"ab", "", none⟩ =
      [("name", "Store name must be at least 3 characters long"),
       ("description", "Store description cannot be empty")] := by decide
  rw [← hv]
  exact h₁.2.1 (by decide)

/-- Claim C2: every created Store carries the authenticated actor as its
vendor and every created Review carries the actor as its user, and both
create operations are independent of the client-supplied owner field: two
requests differing only in vendor_id (or in the read-only user value)
produce identical outcomes. -/
theorem create_owner_injected (db : DB) (u : UserId) (p : StorePayload)
    (rp : ReviewPayload) (now : Nat) (cfg : TweetSettings) (h : HttpOutcome) :
    (∀ s, (storesListCreatePost db (some u) p now cfg h).resp = Resp.success 201 s →
      s.vendor = u ∧
      (storesListCreatePost db (some u) p now cfg h).db.stores = db.stores ++ [s]) ∧
    (∀ v₁ v₂, storesListCreatePost db (some u) { p with vendorId := v₁ } now cfg h =
              storesListCreatePost db (some u) { p with vendorId := v₂ } now cfg h) ∧
    (∀ r, (reviewCreate db (some u) rp now).fst = Resp.success 201 r → r.userId = u) ∧
    (∀ w₁ w₂, reviewCreate db (some u) { rp with userField := w₁ } now =
              reviewCreate db (some u) { rp with userField := w₂ } now) := by
  refine ⟨?_, ?_, ?_, ?_⟩
  · intro s hs
    by_cases hE : (storeValidate p).isEmpty
    · simp only [storesListCreatePost, hE, if_true, storeSerializerCreate] at hs ⊢
      simp only [Resp.success.injEq, true_and] at hs
      subst hs
      exact ⟨rfl, rfl⟩
    · simp [storesListCreatePost, hE] at hs
  · intro v₁ v₂
    simp [storesListCreatePost, storeValidate, storeSerializerCreate]
  · intro r hr
    unfold reviewCreate at hr
    match hfind : findProduct db rp.productId with
    | none => rw [hfind] at hr; simp at hr
    | some prod =>
      rw [hfind] at hr
      simp only at hr
      by_cases hE : (reviewValidate rp).isEmpty
      · rw [if_pos hE] at hr
        by_cases hdup : db.reviews.any (fun x => x.productId == rp.productId && x.userId == u)
        · rw [if_pos hdup] at hr; simp at hr
        · rw [if_neg hdup] at hr
          simp only [Resp.success.injEq, true_and] at hr
          subst hr
          rfl
      · rw [if_neg hE] at hr; simp at hr
  · intro w₁ w₂
    simp [reviewCreate, reviewValidate]

/-- Witness for C2: vendor 7 creates a valid store on sampleDB; the stored
vendor is 7, the row is appended, and supplying vendor_id 1 versus
vendor_id 2 makes no difference; likewise a review create by user 7
ignores the client-supplied user value. -/
theorem create_owner_injected_witness :
    (Store.vendor { id := 10, vendor := 7, name := "My Shop", description := "nice", createdAt := 5 }) = 7 ∧
    (storesListCreatePost sampleDB (some 7) ⟨"My Shop", "nice", none⟩ 5 sampleCfg .exn).db.stores =
      sampleDB.stores ++ [{ id := 10, vendor := 7, name := "My Shop", description := "nice", createdAt := 5 }] ∧
    storesListCreatePost sampleDB (some 7) ⟨"My Shop", "nice", some 1⟩ 5 sampleCfg .exn =
      storesListCreatePost sampleDB (some 7) ⟨"My Shop", "nice", some 2⟩ 5 sampleCfg .exn ∧
    reviewCreate sampleDB (some 7) ⟨2, 4, "Nice", some 1⟩ 5 =
      reviewCreate sampleDB (some 7) ⟨2, 4, "Nice", some 2⟩ 5 := by
  have h₁ := create_owner_injected sampleDB 7 ⟨"My Shop", "nice", none⟩ ⟨2, 4, "Nice", none⟩
    5 sampleCfg .exn
  have ha := h₁.1 { id := 10, vendor := 7, name := "My Shop", description := "nice", createdAt := 5 }
    (by decide)
  exact ⟨ha.1, ha.2, h₁.2.1 (some 1) (some 2), h₁.2.2.2 (some 1) (some 2)⟩

/-- Claim C5: ANY authenticated actor u — the hypotheses say nothing about
u owning the reviewed product's store — creating a review with rating 1–5
and a non-empty comment on an existing product it has not reviewed before
receives success 201, so ownership of the reviewed product is irrelevant
to review creation. -/
theorem review_create_any_authenticated (db : DB) (u : UserId) (rp : ReviewPayload)
    (now : Nat) (prod : Product)
    (hfind : findProduct db rp.productId = some prod)
    (hr1 : 1 ≤ rp.rating) (hr5 : rp.rating ≤ 5)
    (hc : pyLen (pyStrip rp.comment) ≠ 0)
    (hdup : db.reviews.any (fun r => r.productId == rp.productId && r.userId == u) = false) :
    (reviewCreate db (some u) rp now).fst.status = 201 ∧
    (reviewCreate db (some u) rp now).snd.reviews.length = db.reviews.length + 1 := by
  have h₁ : validateRating rp.rating = .ok rp.rating := by
    unfold validateRating
    rw [if_neg]
    omega
  have h₂ : validateComment (charFieldInput rp.comment) = .ok (pyStrip rp.comment) := by
    unfold validateComment charFieldInput
    rw [pyStrip_idem, if_neg]
    omega
  have hval : reviewValidate rp = [] := by
    simp [reviewValidate, h₁, h₂, fieldErr]
  simp [reviewCreate, hfind, hval, hdup, Resp.status]

/-- Witness for C5: user 6 — not the vendor of store 1, which owns product
2 — reviews product 2 on sampleDB and gets a 201. -/
theorem review_create_any_authenticated_witness :
    (reviewCreate sampleDB (some 6) ⟨2, 4, "Nice", none⟩ 5).fst.status = 201 ∧
    (reviewCreate sampleDB (some 6) ⟨2, 4, "Nice", none⟩ 5).snd.reviews.length =
      sampleDB.reviews.length + 1 := by
  exact review_create_any_authenticated sampleDB 6 ⟨2, 4, "Nice", none⟩ 5
    { id := 2, storeId := 1, name := "Widget", description := "good", price := 999, createdAt := 0 }
    (by decide) (by decide) (by decide) (by decide) (by decide)

/-- Claim C6: a second review for the same (product, reviewer) pair is
rejected as a uniqueness Conflict surfaced as a validation-style error and
leaves the state unchanged, and the (product, reviewer) uniqueness
invariant is preserved by every operation of the service. -/
theorem review_pair_unique (db : DB) (u : UserId) (rp rp' : ReviewPayload)
    (p : StorePayload) (pp : ProductPayload) (a : Actor) (sid pid : Nat)
    (sp : StoreUpdatePayload) (now : Nat) (cfg : TweetSettings) (h : HttpOutcome)
    (prod : Product) (r₀ : Review)
    (hu : reviewsUnique db)
    (hfind : findProduct db rp.productId = some prod)
    (hval : reviewValidate rp = [])
    (hr₀ : r₀ ∈ db.reviews) (hr₀p : r₀.productId = rp.productId) (hr₀u : r₀.userId = u) :
    ((reviewCreate db (some u) rp now).fst =
      Resp.validationError
        [("non_field_errors", "The fields product, user must make a unique set.")] ∧
     (reviewCreate db (some u) rp now).snd = db ∧
     (reviewCreate db (some u) rp now).fst.status = 400) ∧
    reviewsUnique (reviewCreate db a rp' now).snd ∧
    reviewsUnique (storesListCreatePost db a p now cfg h).db ∧
    reviewsUnique (storeProductsPost db a sid pp now cfg h).db ∧
    reviewsUnique (storeDetailPut db a sid sp).snd ∧
    reviewsUnique (storeDetailDelete db a sid).snd ∧
    reviewsUnique (productDetailDelete db a pid).snd := by
  have hdup : db.reviews.any (fun x => x.productId == rp.productId && x.userId == u) = true := by
    rw [List.any_eq_true]
    exact ⟨r₀, hr₀, by simp [hr₀p, hr₀u]⟩
  refine ⟨?_, ?_, ?_, ?_, ?_, ?_, ?_⟩
  · simp [reviewCreate, hfind, hval, hdup, Resp.status]
  · -- review create: unchanged in every failure branch, guarded append on success
    unfold reviewCreate
    match a with
    | none => exact hu
    | some user =>
      match hf : findProduct db rp'.productId with
      | none => exact hu
      | some _ =>
        simp only
        by_cases hE : (reviewValidate rp').isEmpty
        · rw [if_pos hE]
          by_cases hd : db.reviews.any (fun x => x.productId == rp'.productId && x.userId == user)
          · rw [if_pos hd]; exact hu
          · rw [if_neg hd]
            unfold reviewsUnique at hu ⊢
            simp only
            rw [List.pairwise_append]
            refine ⟨hu, List.pairwise_singleton _ _, ?_⟩
            intro x hx y hy
            simp only [List.mem_singleton] at hy
            subst hy
            rw [Bool.not_eq_true, List.any_eq_false] at hd
            have hfx := hd x hx
            simp only [Bool.and_eq_true, beq_iff_eq, not_and] at hfx
            dsimp only
            intro hcon
            exact hfx hcon.1 hcon.2
        · rw [if_neg hE]; exact hu
  · -- store create: the reviews column is untouched
    unfold storesListCreatePost
    match a with
    | none => exact hu
    | some user =>
      simp only
      by_cases hE : (storeValidate p).isEmpty
      · rw [if_pos hE]; exact hu
      · rw [if_neg hE]; exact hu
  · -- product create: the reviews column is untouched
    unfold storeProductsPost
    match hf : findStore db sid with
    | none => exact hu
    | some store =>
      match a with
      | none => exact hu
      | some user =>
        simp only
        by_cases hv : store.vendor ≠ user
        · rw [if_pos hv]; exact hu
        · rw [if_neg hv]
          by_cases hE : (productValidate db (some user) sid pp).isEmpty
          · rw [if_pos hE]; exact hu
          · rw [if_neg hE]; exact hu
  · -- store update: the reviews column is untouched
    unfold storeDetailPut
    match hf : findStore db sid with
    | none => exact hu
    | some store =>
      match a with
      | none => exact hu
      | some user =>
        simp only
        by_cases hv : store.vendor ≠ user
        · rw [if_pos hv]; exact hu
        · rw [if_neg hv]
          by_cases hE : (storeUpdateValidate sp).isEmpty
          · rw [if_pos hE]; exact hu
          · rw [if_neg hE]; exact hu
  · -- store delete: the cascade filters the review list
    unfold storeDetailDelete
    match hf : findStore db sid with
    | none => exact hu
    | some store =>
      match a with
      | none => exact hu
      | some user =>
        simp only
        by_cases hv : store.vendor ≠ user
        · rw [if_pos hv]; exact hu
        · rw [if_neg hv]
          exact List.Pairwise.filter _ hu
  · -- product delete: the cascade filters the review list
    unfold productDetailDelete
    match hf : findProduct db pid with
    | none => exact hu
    | some prod' =>
      simp only
      match a with
      | none => exact hu
      | some user =>
        simp only
        match hfs : findStore db prod'.storeId with
        | none => exact hu
        | some store =>
          simp only
          by_cases hv : store.vendor ≠ user
          · rw [if_pos hv]; exact hu
          · rw [if_neg hv]
            exact List.Pairwise.filter _ hu

/-- Witness for C6: on sampleDB, where user 5 already reviewed product 2,
user 5's second review of product 2 is rejected with the unique-set error
and the state is unchanged. -/
theorem review_pair_unique_witness :
    (reviewCreate sampleDB (some 5) ⟨2, 3, "Again", none⟩ 5).fst =
      Resp.validationError
        [("non_field_errors", "The fields product, user must make a unique set.")] ∧
    (reviewCreate sampleDB (some 5) ⟨2, 3, "Again", none⟩ 5).snd = sampleDB := by
  have h₁ := review_pair_unique sampleDB 5 ⟨2, 3, "Again", none⟩ ⟨2, 3, "Again", none⟩
    ⟨"My Shop", "nice", none⟩ ⟨"Gadget", "fine", 5⟩ (some 5) 1 2
    ⟨none, none, none⟩ 5 sampleCfg .exn
    { id := 2, storeId := 1, name := "Widget", description := "good", price := 999, createdAt := 0 }
    { id := 9, productId := 2, userId := 5, rating := 5, comment := "Great", createdAt := 0 }
    (by decide) (by decide) (by decide) (by decide) (by decide) (by decide)
  exact ⟨h₁.1.1, h₁.1.2.1⟩

/-- Branch structure of storesListCreatePost, proved once and reused: the
handler answers 401 when anonymous, 400 on invalid payload, and otherwise
persists, dispatches and answers 201. -/
theorem storesListCreatePost_spec (db : DB) (a : Actor) (p : StorePayload) (now : Nat)
    (cfg : TweetSettings) (h : HttpOutcome) :
    storesListCreatePost db a p now cfg h =
      match a with
      | none => ⟨Resp.unauthenticated, db, [], 0⟩
      | some u =>
        if (storeValidate p).isEmpty then
          ⟨Resp.success 201 (storeSerializerCreate u p db now).fst,
           (storeSerializerCreate u p db now).snd, [Event.persisted, Event.dispatched],
           ((TweetState.init cfg).makeTweet h).snd⟩
        else ⟨Resp.validationError (storeValidate p), db, [], 0⟩ := by
  cases a with
  | none => rfl
  | some u =>
    by_cases hE : (storeValidate p).isEmpty
    · simp [storesListCreatePost, hE, storeSerializerCreate]
    · simp [storesListCreatePost, hE]

/-- Branch structure of storeProductsPost, proved once and reused. -/
theorem storeProductsPost_spec (db : DB) (a : Actor) (sid : Nat) (pp : ProductPayload)
    (now : Nat) (cfg : TweetSettings) (h : HttpOutcome) :
    storeProductsPost db a sid pp now cfg h =
      match findStore db sid with
      | none => ⟨Resp.serverError, db, [], 0⟩
      | some store =>
        match a with
        | none => ⟨Resp.unauthenticated, db, [], 0⟩
        | some u =>
          if store.vendor ≠ u then ⟨Resp.forbidden, db, [], 0⟩
          else if (productValidate db (some u) sid pp).isEmpty then
            ⟨Resp.success 201
               { id := db.nextId, storeId := sid, name := pyStrip (charFieldInput pp.name),
                 description := pyStrip (charFieldInput pp.description), price := pp.price,
                 createdAt := now },
             { db with
               products := db.products ++
                 [({ id := db.nextId, storeId := sid, name := pyStrip (charFieldInput pp.name),
                     description := pyStrip (charFieldInput pp.description), price := pp.price,
                     createdAt := now } : Product)],
               nextId := db.nextId + 1 },
             [Event.persisted, Event.dispatched], ((TweetState.init cfg).makeTweet h).snd⟩
          else ⟨Resp.validationError (productValidate db (some u) sid pp), db, [], 0⟩ := by
  unfold storeProductsPost
  match hf : findStore db sid with
  | none => rfl
  | some store =>
    simp only
    cases a with
    | none => rfl
    | some u =>
      simp only

/-- Claim C7: a dispatcher constructed while any of the four secrets is
missing (falsy) is permanently inert — self.oauth stays None, every
make_tweet call performs zero outbound HTTP calls and returns the skipped
result without raising — and the create operation that triggered it still
answers 201 with zero outbound calls. -/
theorem tweet_missing_secret_inert (cfg : TweetSettings)
    (hmiss : truthy cfg.consumerKey = false ∨ truthy cfg.consumerSecret = false ∨
             truthy cfg.accessToken = false ∨ truthy cfg.accessTokenSecret = false) :
    (TweetState.init cfg).oauth = false ∧
    (∀ h, (TweetState.init cfg).makeTweet h = (TweetResult.skipped, 0)) ∧
    (∀ db u p now h, (storesListCreatePost db (some u) p now cfg h).tweetCalls = 0) ∧
    (∀ db u sid pp now h, (storeProductsPost db (some u) sid pp now cfg h).tweetCalls = 0) ∧
    (∀ db u p now h, storeValidate p = [] →
      (storesListCreatePost db (some u) p now cfg h).resp.status = 201) := by
  have hoauth : (TweetState.init cfg).oauth = false := by
    unfold TweetState.init TweetState.authenticate
    by_cases h12 : truthy cfg.consumerKey && truthy cfg.consumerSecret
    · rw [if_pos h12]
      have h4 : (truthy cfg.consumerKey && truthy cfg.consumerSecret &&
                 truthy cfg.accessToken && truthy cfg.accessTokenSecret) = false := by
        rcases hmiss with hm | hm | hm | hm <;> simp [hm]
      simp only [h4, Bool.false_eq_true, if_false]
    · rw [if_neg h12]
  have hmk : ∀ h, (TweetState.init cfg).makeTweet h = (TweetResult.skipped, 0) := by
    intro h
    unfold TweetState.makeTweet
    rw [hoauth]
    rfl
  refine ⟨hoauth, hmk, ?_, ?_, ?_⟩
  · intro db u p now h
    rw [storesListCreatePost_spec]
    by_cases hE : (storeValidate p).isEmpty <;> simp [hE, hmk h]
  · intro db u sid pp now h
    rw [storeProductsPost_spec]
    match hf : findStore db sid with
    | none => rfl
    | some store =>
      simp only
      by_cases hv : store.vendor ≠ u
      · rw [if_pos hv]
      · rw [if_neg hv]
        by_cases hE : (productValidate db (some u) sid pp).isEmpty <;> simp [hE, hmk h]
  · intro db u p now h hval
    have hE : (storeValidate p).isEmpty = true := by rw [hval]; rfl
    rw [storesListCreatePost_spec]
    simp [hE, Resp.status]

/-- Witness for C7: with every secret absent, the dispatcher built from
emptyCfg skips with zero outbound calls, and vendor 7's store create on
sampleDB still answers 201 with zero outbound calls. -/
theorem tweet_missing_secret_inert_witness :
    (TweetState.init emptyCfg).oauth = false ∧
    (TweetState.init emptyCfg).makeTweet (.status 201) = (TweetResult.skipped, 0) ∧
    (storesListCreatePost sampleDB (some 7) ⟨"My Shop", "nice", none⟩ 5 emptyCfg .exn).tweetCalls = 0 ∧
    (storesListCreatePost sampleDB (some 7) ⟨"My Shop", "nice", none⟩ 5 emptyCfg .exn).resp.status = 201 := by
  have h₁ := tweet_missing_secret_inert emptyCfg (Or.inl (by decide))
  exact ⟨h₁.1, h₁.2.1 (.status 201), h₁.2.2.1 sampleDB 7 ⟨"My Shop", "nice", none⟩ 5 .exn,
         h₁.2.2.2.2 sampleDB 7 ⟨"My Shop", "nice", none⟩ 5 .exn (by decide)⟩

/-- Claim C8: for both create endpoints the notification environment (the
credentials and the HTTP outcome, including an exception) never changes
the response, the new state or the event order; a dispatch event only ever
follows a persist event; and whenever persistence happened the request
answers 201. -/
theorem create_persist_before_dispatch (db : DB) (a : Actor) (p : StorePayload)
    (sid : Nat) (pp : ProductPayload) (now : Nat) (cfg cfg' : TweetSettings)
    (h h' : HttpOutcome) :
    ((storesListCreatePost db a p now cfg h).resp = (storesListCreatePost db a p now cfg' h').resp ∧
     (storesListCreatePost db a p now cfg h).db = (storesListCreatePost db a p now cfg' h').db ∧
     (storesListCreatePost db a p now cfg h).events = (storesListCreatePost db a p now cfg' h').events) ∧
    (Event.dispatched ∈ (storesListCreatePost db a p now cfg h).events →
      (storesListCreatePost db a p now cfg h).events = [Event.persisted, Event.dispatched]) ∧
    (Event.persisted ∈ (storesListCreatePost db a p now cfg h).events →
      (storesListCreatePost db a p now cfg h).resp.status = 201) ∧
    ((storeProductsPost db a sid pp now cfg h).resp = (storeProductsPost db a sid pp now cfg' h').resp ∧
     (storeProductsPost db a sid pp now cfg h).db = (storeProductsPost db a sid pp now cfg' h').db ∧
     (storeProductsPost db a sid pp now cfg h).events = (storeProductsPost db a sid pp now cfg' h').events) ∧
    (Event.dispatched ∈ (storeProductsPost db a sid pp now cfg h).events →
      (storeProductsPost db a sid pp now cfg h).events = [Event.persisted, Event.dispatched]) ∧
    (Event.persisted ∈ (storeProductsPost db a sid pp now cfg h).events →
      (storeProductsPost db a sid pp now cfg h).resp.status = 201) := by
  rw [storesListCreatePost_spec db a p now cfg h, storesListCreatePost_spec db a p now cfg' h',
      storeProductsPost_spec db a sid pp now cfg h, storeProductsPost_spec db a sid pp now cfg' h']
  cases hf : findStore db sid with
  | none =>
    cases a with
    | none => simp [Resp.status]
    | some u =>
      by_cases hE : (storeValidate p).isEmpty <;> simp [hE, Resp.status]
  | some store =>
    cases a with
    | none => simp [Resp.status]
    | some u =>
      by_cases hE : (storeValidate p).isEmpty <;>
        by_cases hv : store.vendor ≠ u <;>
          by_cases hE2 : (productValidate db (some u) sid pp).isEmpty <;>
            simp [hE, hv, hE2, Resp.status]

/-- Witness for C8: on sampleDB the owner's product create answers the
same 201 whether the outbound post returns 201, returns 500 or raises,
and its event order is persist then dispatch. -/
theorem create_persist_before_dispatch_witness :
    (storeProductsPost sampleDB (some 1) 1 ⟨"Gadget", "fine", 5⟩ 5 sampleCfg (.status 500)).resp =
      (storeProductsPost sampleDB (some 1) 1 ⟨"Gadget", "fine", 5⟩ 5 sampleCfg .exn).resp ∧
    (storeProductsPost sampleDB (some 1) 1 ⟨"Gadget", "fine", 5⟩ 5 sampleCfg .exn).events =
      [Event.persisted, Event.dispatched] ∧
    (storeProductsPost sampleDB (some 1) 1 ⟨"Gadget", "fine", 5⟩ 5 sampleCfg .exn).resp.status = 201 := by
  have h₁ := create_persist_before_dispatch sampleDB (some 1) ⟨"My Shop", "nice", none⟩ 1
    ⟨"Gadget", "fine", 5⟩ 5 sampleCfg sampleCfg (.status 500) .exn
  have h₂ := create_persist_before_dispatch sampleDB (some 1) ⟨"My Shop", "nice", none⟩ 1
    ⟨"Gadget", "fine", 5⟩ 5 sampleCfg sampleCfg .exn .exn
  refine ⟨h₁.2.2.2.1.1, h₂.2.2.2.2.1 (by decide), h₂.2.2.2.2.2 (by decide)⟩

/-- Branch structure of storeDetailDelete, proved once and reused. -/
theorem storeDetailDelete_spec (db : DB) (a : Actor) (sid : Nat) :
    storeDetailDelete db a sid =
      match findStore db sid with
      | none => (Resp.serverError, db)
      | some store =>
        match a with
        | none => (Resp.unauthenticated, db)
        | some user =>
          if store.vendor ≠ user then (Resp.forbidden, db)
          else (Resp.success 204 (), deleteStoreCascade db sid) := rfl

/-- Claim C9: after a successful DELETE of a store, no store row with that
id, no product referencing that store, and no review referencing any
product of that store remains in the state. -/
theorem store_delete_cascades (db : DB) (a : Actor) (sid : Nat)
    (hok : (storeDetailDelete db a sid).fst.status = 204) :
    (∀ s, s ∈ (storeDetailDelete db a sid).snd.stores → s.id ≠ sid) ∧
    (∀ pr, pr ∈ (storeDetailDelete db a sid).snd.products → pr.storeId ≠ sid) ∧
    (∀ r, r ∈ (storeDetailDelete db a sid).snd.reviews →
      ∀ pr, pr ∈ db.products → pr.storeId = sid → r.productId ≠ pr.id) := by
  have hsnd : (storeDetailDelete db a sid).snd = deleteStoreCascade db sid := by
    rw [storeDetailDelete_spec] at hok ⊢
    revert hok
    cases hf : findStore db sid with
    | none => intro hok; simp [Resp.status] at hok
    | some store =>
      dsimp only
      cases a with
      | none => intro hok; simp [Resp.status] at hok
      | some user =>
        dsimp only
        by_cases hv : store.vendor ≠ user
        · rw [if_pos hv]; intro hok; simp [Resp.status] at hok
        · rw [if_neg hv]; intro hok; rfl
  rw [hsnd]
  unfold deleteStoreCascade
  refine ⟨?_, ?_, ?_⟩
  · intro s hs
    simp only [List.mem_filter, bne_iff_ne, ne_eq] at hs
    exact hs.2
  · intro pr hpr
    simp only [List.mem_filter, bne_iff_ne, ne_eq] at hpr
    exact hpr.2
  · intro r hr pr hpr hsid
    simp only [List.mem_filter, Bool.not_eq_eq_eq_not, Bool.not_true, List.any_eq_false] at hr
    have hne := hr.2 pr ⟨hpr, by simp [hsid]⟩
    intro hcon
    apply hne
    rw [hcon]
    exact beq_self_eq_true _

/-- Witness for C9: vendor 1 deletes store 1 on sampleDB; the surviving
state holds no store 1, no product of store 1, and no review of such a
product. -/
theorem store_delete_cascades_witness :
    (storeDetailDelete sampleDB (some 1) 1).fst.status = 204 ∧
    (storeDetailDelete sampleDB (some 1) 1).snd.stores = [] ∧
    (storeDetailDelete sampleDB (some 1) 1).snd.products = [] ∧
    (storeDetailDelete sampleDB (some 1) 1).snd.reviews = [] ∧
    ((storeDetailDelete sampleDB (some 1) 1).snd.reviews.all
      (fun r => r.productId ≠ 2) = true) := by
  have h₁ := store_delete_cascades sampleDB (some 1) 1 (by decide)
  refine ⟨by decide, by decide, by decide, by decide, ?_⟩
  rw [List.all_eq_true]
  intro r hr
  have := h₁.2.2 r hr
    { id := 2, storeId := 1, name := "Widget", description := "good", price := 999, createdAt := 0 }
    (by decide) rfl
  simp only [decide_eq_true_eq]
  exact this

end ECom
